import Mathlib

/-!
# Verification of the `pingo` ICMP echo client

A shallow embedding of the core of the `pingo` repository: the packet
codec (`createPacket`, `timeToBytes`, `bytesToTime`), the pinger engine
(`NewPinger`, `Ping` drive loop, `recv`, `parse` from
`pinger/pinger.go`), the statistics accumulator (`Stats` from
`pinger/stats.go`) and the `math` helper package (`Min`, `Max`, `Mean`,
`StdDev`).

Modelling conventions:
* Go `[]byte` values are `List Int` whose entries lie in `[0, 256)`.
* Go `int64` arithmetic that can wrap (the timestamp reconstruction in
  `bytesToTime`) wraps explicitly through `int64Wrap`, i.e. reduction
  modulo `2^64` into `[-2^63, 2^63)`.
* Go `>>` on `int64` is an arithmetic (floor) shift and `& 0xff` takes
  the nonnegative low byte; for the positive power-of-two divisors used
  here these are exactly `Int`'s `/` (`Int.ediv`) and `%` (`Int.emod`).
  Go's truncating `/` and `%` (used in `time.Unix(nsec/1e9, nsec%1e9)`)
  are `Int.tdiv` and `Int.tmod`.
* `time.Time` values are represented by their `UnixNano` value, an
  `Int`; `time.Duration` is likewise an `Int` of nanoseconds.
* Go `float64` arithmetic in the statistics code is modelled with exact
  rational numbers, extended with the IEEE special values `NaN`, `+Inf`
  and `-Inf` (`GoFloat`) where division by zero matters; `math.Sqrt` is
  `Real.sqrt`.
* Channel effects of the drive loop are modelled by the run outcome: the
  ordered list of values sent on `reportChan`, the optional value sent
  on `errChan`, and the final `Stats`.  The `defer close(p.reportChan)`
  means the outcome stream is closed exactly when the loop returns.
-/

/-- `timeByteSize` from `pinger/pinger.go`: number of bytes used to
represent the timestamp in the payload. -/
def timeByteSize : Nat := 8

/-- `timeToBytes` from `pinger/pinger.go`: big-endian encoding of the
nanosecond timestamp `nsec = t.UnixNano()` into 8 bytes, where
`b[i] = byte((nsec >> ((7-i)*8)) & 0xff)`. -/
def timeToBytes (nsec : Int) : List Int :=
  (List.range timeByteSize).map fun i => nsec / 2 ^ ((7 - i) * 8) % 256

/-- Reduction of an unbounded integer into the `int64` range
`[-2^63, 2^63)`, i.e. the two's-complement wraparound Go applies to all
`int64` arithmetic. -/
def int64Wrap (x : Int) : Int :=
  let u := x % 2 ^ 64
  if u < 2 ^ 63 then u else u - 2 ^ 64

/-- `time.Unix(sec, nsec).UnixNano()`: the instant `sec` seconds plus
`nsec` nanoseconds after the epoch, as nanoseconds. -/
def unixTime (sec nsec : Int) : Int :=
  sec * 1000000000 + nsec

/-- The accumulation loop of `bytesToTime` from `pinger/pinger.go`:
folds the 8 bytes back into an `int64` nanosecond count via
`nsec += int64(b[i]) << ((7-i)*8)`, each shift and addition wrapping
like Go `int64` arithmetic. -/
def bytesToTimeNsec (b : List Int) : Int :=
  (List.range timeByteSize).foldl
    (fun acc i => int64Wrap (acc + int64Wrap (b.getD i 0 * 2 ^ ((7 - i) * 8)))) 0

/-- `bytesToTime` from `pinger/pinger.go`: reconstructs the nanosecond
count and returns `time.Unix(nsec/1000000000, nsec%1000000000)` (Go's
`/` and `%` on `int64` truncate, hence `Int.tdiv` / `Int.tmod`). -/
def bytesToTime (b : List Int) : Int :=
  unixTime (Int.tdiv (bytesToTimeNsec b) 1000000000)
    (Int.tmod (bytesToTimeNsec b) 1000000000)

/-! ## ICMP codec (the used subset of `golang.org/x/net/icmp`) -/

/-- `icmp.Echo`: the body of an ICMPv4 Echo Request / Echo Reply. -/
structure Echo where
  ID : Int
  Seq : Int
  Data : List Int
  deriving DecidableEq, Repr

/-- The body of a parsed ICMP message: an `*icmp.Echo` for the echo
types, abstracted for every other message type (the pinger rejects all
non-Echo-Reply messages before ever looking at their bodies). -/
inductive MessageBody where
  | echo : Echo → MessageBody
  | other : List Int → MessageBody
  deriving DecidableEq, Repr

/-- `icmp.Message` restricted to the fields the pinger reads: the ICMPv4
type byte, code, checksum and body. -/
structure Message where
  mtype : Int
  code : Int
  cksum : Int
  body : MessageBody
  deriving DecidableEq, Repr

/-- `ipv4.ICMPTypeEchoReply` (type byte 0). -/
def icmpTypeEchoReply : Int := 0

/-- `ipv4.ICMPTypeEcho` (type byte 8). -/
def icmpTypeEcho : Int := 8

/-- `icmp.parseEcho`: an echo body needs at least 4 bytes; the first two
are the big-endian identifier, the next two the big-endian sequence
number, the rest the payload. -/
def parseEcho (b : List Int) : Except String Echo :=
  if b.length < 4 then .error "message too short"
  else .ok { ID := b.getD 0 0 * 256 + b.getD 1 0,
             Seq := b.getD 2 0 * 256 + b.getD 3 0,
             Data := b.drop 4 }

/-- `icmp.ParseMessage(1, b)` (protocol 1 = ICMPv4): needs at least the
4 header bytes; byte 0 is the type, byte 1 the code, bytes 2-3 the
big-endian checksum; the echo types parse an `Echo` body, every other
type is kept with an abstract body (their concrete bodies are never
inspected by the pinger). -/
def ParseMessage (b : List Int) : Except String Message :=
  if b.length < 4 then .error "message too short"
  else
    let t := b.getD 0 0
    if t = icmpTypeEchoReply ∨ t = icmpTypeEcho then
      match parseEcho (b.drop 4) with
      | .error e => .error e
      | .ok echo =>
          .ok { mtype := t, code := b.getD 1 0,
                cksum := b.getD 2 0 * 256 + b.getD 3 0, body := .echo echo }
    else
      .ok { mtype := t, code := b.getD 1 0,
            cksum := b.getD 2 0 * 256 + b.getD 3 0, body := .other (b.drop 4) }

/-- The pairwise accumulation of the internet checksum used by
`icmp.Message.Marshal`: sums the 16-bit little-endian words
`b[i+1]<<8 | b[i]`, adding a trailing lone byte for odd lengths, with
`uint32` wraparound on every addition. -/
def checksumAdd : List Int → Int
  | [] => 0
  | [b] => b
  | b0 :: b1 :: rest => (checksumAdd rest + (b1 * 256 + b0)) % 2 ^ 32

/-- The internet checksum of `golang.org/x/net/icmp`: fold the carries
back in twice and complement the low 16 bits. -/
def icmpChecksum (b : List Int) : Int :=
  let s := checksumAdd b
  let s := (s / 2 ^ 16 + s % 2 ^ 16) % 2 ^ 32
  let s := (s + s / 2 ^ 16) % 2 ^ 32
  65535 - s % 2 ^ 16

/-- `icmp.Echo.Marshal`: 2 big-endian bytes of `uint16(ID)`, 2 of
`uint16(Seq)`, then the payload verbatim. -/
def marshalEcho (id seq : Int) (data : List Int) : List Int :=
  [id % 2 ^ 16 / 256, id % 256, seq % 2 ^ 16 / 256, seq % 256] ++ data

/-- `icmp.Message.Marshal` for an ICMPv4 echo message: header
`[type, code, 0, 0]` plus body, with the internet checksum of the whole
buffer stored little-endian-wise into bytes 2 and 3
(`b[2] ^= byte(s); b[3] ^= byte(s>>8)` on zero bytes). -/
def marshalMessage (mtype code id seq : Int) (data : List Int) : List Int :=
  let s := icmpChecksum ([mtype, code, 0, 0] ++ marshalEcho id seq data)
  [mtype, code, s % 256, s / 256 % 256] ++ marshalEcho id seq data

/-- `createPacket` from `pinger/pinger.go`: the payload starts as the
8-byte timestamp (`timeToBytes(time.Now())`, the current instant `now`
made explicit); if the requested `size` exceeds 8 the payload is padded
with `1` bytes up to `size`; the ICMPv4 Echo Request is then marshalled.
`Marshal` cannot fail for this message, so the error result is never
produced. -/
def createPacket (id seq : Int) (size : Int) (now : Int) : Except String (List Int) :=
  let payload := timeToBytes now
  let remaining := size - payload.length
  let payload := if remaining > 0 then payload ++ List.replicate remaining.toNat 1 else payload
  .ok (marshalMessage icmpTypeEcho 0 id seq payload)

/-- `Except.isOk`-style discriminator used to state success claims. -/
def isOkE {ε α : Type} : Except ε α → Bool
  | .ok _ => true
  | .error _ => false

/-! ## The pinger engine (`pinger/pinger.go`, `pinger/stats.go`) -/

/-- `DefaultTimeout` (1 second, as nanoseconds). -/
def DefaultTimeout : Int := 1000000000

/-- `DefaultPacketSize` (56 bytes). -/
def DefaultPacketSize : Nat := 56

/-- `maxID` from `pinger/pinger.go` (`0xffff`), the argument given to
`rand.Intn` when picking a packet identifier. -/
def maxID : Nat := 0xffff

/-- `math/rand.Intn(n)`'s contract: a value uniformly distributed in
`[0, n)`.  The hidden global random source is made explicit as the
`draw` parameter; reduction modulo `n` realises every admissible
return value and no other. -/
def randIntn (n : Nat) (draw : Nat) : Nat := draw % n

/-- `Options` from `pinger/pinger.go`.  `Timeout` is a `time.Duration`
(nanoseconds), `Count` and `PacketSize` are Go `uint`s. -/
structure Options where
  Timeout : Int
  Count : Nat
  PacketSize : Nat
  deriving DecidableEq, Repr

/-- `Options.setDefaults`: each zero / non-positive option is replaced
by its default.  The `Count < 0` branch of the source can never fire
(`Count` is unsigned) and is kept verbatim. -/
def Options.setDefaults (o : Options) : Options :=
  let o := if o.Timeout ≤ 0 then { o with Timeout := DefaultTimeout } else o
  let o := if o.Count < 0 then { o with Count := 0 } else o
  if o.PacketSize ≤ 0 then { o with PacketSize := DefaultPacketSize } else o

/-- `Ping` from `pinger/pinger.go`: one reported attempt outcome. -/
structure Ping where
  Seq : Nat
  Size : Nat
  RTT : Int
  Timeout : Bool
  deriving DecidableEq, Repr

/-- `Stats` from `pinger/stats.go`. -/
structure Stats where
  totalCount : Nat
  successCount : Nat
  rtts : List Int
  deriving DecidableEq, Repr

/-- `Stats.Transmitted`. -/
def Stats.Transmitted (s : Stats) : Nat := s.totalCount

/-- `Stats.Received`. -/
def Stats.Received (s : Stats) : Nat := s.successCount

/-- `Stats.incSuccess`: increments both counters and appends the rtt. -/
def Stats.incSuccess (s : Stats) (rtt : Int) : Stats :=
  { s with totalCount := s.totalCount + 1,
           successCount := s.successCount + 1,
           rtts := s.rtts ++ [rtt] }

/-- `Stats.incTimeout`: increments only the total counter. -/
def Stats.incTimeout (s : Stats) : Stats :=
  { s with totalCount := s.totalCount + 1 }

/-- The zero `Stats` value a pinger starts with (`stats: &Stats{}`). -/
def zeroStats : Stats := ⟨0, 0, []⟩

/-- The pinger state built by `NewPinger`: the identifier drawn at
construction and the (defaulted) options. -/
structure PingerState where
  id : Nat
  opts : Options
  deriving DecidableEq, Repr

/-- `NewPinger` from `pinger/pinger.go`: calls `opts.setDefaults()`
through the caller's pointer — modelled by also returning the updated
`Options` value the caller's variable now holds — and draws the packet
identifier with `rand.Intn(maxID)`. -/
def NewPinger (draw : Nat) (opts : Options) : PingerState × Options :=
  let opts := opts.setDefaults
  (⟨randIntn maxID draw, opts⟩, opts)

/-- `pinger.parse` from `pinger/pinger.go`: parse the raw reply, reject
messages that are not Echo Replies, then reject identifier or sequence
mismatches.  The error strings abbreviate the values Go's `fmt.Errorf`
formats in with `%v` / `%T`; no claim depends on their exact text,
only on which result is an error. -/
def pingerParse (id : Nat) (seq : Nat) (resBytes : List Int) : Except String Echo :=
  match ParseMessage resBytes with
  | .error e => .error s!"cannot parse response for icmp_seq {seq}: {e}"
  | .ok res =>
      if res.mtype ≠ icmpTypeEchoReply then
        .error s!"cannot parse response for icmp_seq {seq}: not an echo reply"
      else
        match res.body with
        | .other _ => .error s!"unexpected response type for icmp_seq {seq}"
        | .echo pkt =>
            if pkt.ID ≠ (id : Int) ∨ pkt.Seq ≠ (seq : Int) then
              .error s!"unexpected response for icmp_seq {seq}"
            else .ok pkt

/-- What one blocking read (`conn.ReadFrom` bounded by the deadline)
can produce: expiry of the timeout, a non-timeout read error, or `n`
bytes of data. -/
inductive ReadResult where
  | timeout
  | failure (msg : String)
  | data (n : Nat) (bytes : List Int)
  deriving DecidableEq, Repr

/-- `pinger.recv` from `pinger/pinger.go`: a timed-out read becomes a
timeout outcome (`incTimeout`), a non-timeout read error or a reply
rejected by `parse` is returned as an error, and a valid correlated
reply yields a success outcome whose rtt is `now` minus the embedded
timestamp (`incSuccess`).  `now` is the instant `time.Since` reads the
clock at.  `res.Data[:timeByteSize]` is `take`: on an accepted reply
whose payload is shorter than 8 bytes the Go slice would panic, a case
no claim touches and the model totalises. -/
def recv (id : Nat) (seq : Nat) (r : ReadResult) (now : Int) (stats : Stats) :
    Except String (Ping × Stats) :=
  match r with
  | .timeout => .ok ({ Seq := seq, Size := 0, RTT := 0, Timeout := true }, stats.incTimeout)
  | .failure msg => .error s!"cannot read packet for icmp_seq {seq}: {msg}"
  | .data n resBytes =>
      match pingerParse id seq resBytes with
      | .error e => .error e
      | .ok res =>
          let rtt := now - bytesToTime (res.Data.take timeByteSize)
          .ok ({ Seq := seq, Size := n, RTT := rtt, Timeout := false }, stats.incSuccess rtt)

/-- What the environment does in one iteration of the drive loop: the
send either fails (`conn.WriteTo` error) or succeeds, in which case the
subsequent read produces a `ReadResult` at instant `now`. -/
inductive StepEvent where
  | sendFail (msg : String)
  | sendOk (r : ReadResult) (now : Int)

/-- The observable outcome of a finished drive loop: the outcomes sent
on `reportChan` in order, the error sent on `errChan` (if any), and the
final statistics.  `reportChan` is closed exactly when the loop
finishes (its `defer close`). -/
structure RunResult where
  emitted : List Ping
  err : Option String
  stats : Stats
  deriving DecidableEq, Repr

/-- The `for` loop of `pinger.Ping` from `pinger/pinger.go`, driven by
the environment `script` (one `StepEvent` per sequence number): send,
receive, report the outcome, increment `seq`, and stop when `Count` is
nonzero and reached.  A send failure or a `recv` error goes to
`errChan` and ends the loop at once.  `fuel` bounds the number of
iterations so the function is total; `none` means the loop was still
running after `fuel` iterations (the sleep between iterations has no
observable effect here and is dropped). -/
def pingLoop (id : Nat) (count : Nat) (script : Nat → StepEvent) :
    Nat → Nat → Stats → Option RunResult
  | 0, _, _ => none
  | fuel + 1, seq, stats =>
      match script seq with
      | .sendFail msg =>
          some ⟨[], some s!"cannot send ping packet for icmp_seq {seq}: {msg}", stats⟩
      | .sendOk r now =>
          match recv id seq r now stats with
          | .error e => some ⟨[], some e, stats⟩
          | .ok (ping, stats') =>
              if count ≠ 0 ∧ seq + 1 = count then some ⟨[ping], none, stats'⟩
              else
                match pingLoop id count script fuel (seq + 1) stats' with
                | none => none
                | some res => some ⟨ping :: res.emitted, res.err, res.stats⟩

/-- `pinger.Ping` from `pinger/pinger.go`: acquire the endpoint
(`icmp.ListenPacket`; a failure goes to `errChan` and ends the run
before any attempt) and run the drive loop from sequence 0 with the
zero statistics of a fresh pinger. -/
def pingRun (p : PingerState) (listenErr : Option String) (script : Nat → StepEvent)
    (fuel : Nat) : Option RunResult :=
  match listenErr with
  | some e => some ⟨[], some s!"cannot connect to addr: {e}", zeroStats⟩
  | none => pingLoop p.id p.opts.Count script fuel 0 zeroStats

/-! ## The `math` helper package (`math/stats.go`, `math/duration.go`)

The package operates on `float64` slices whose entries, in this
program, are finite millisecond values; its arithmetic is modelled with
exact rationals and `math.Sqrt` with `Real.sqrt`. -/

namespace GoMath

/-- `math.MaxFloat64`, the initial accumulator of `Min`. -/
def maxFloat64 : ℚ := (2 ^ 53 - 1) * 2 ^ 971

/-- `reduce` from `math/stats.go`: an empty population short-circuits
to 0, otherwise the reducer is folded over the population
(`acc = fn(v, acc)`). -/
def reduce (population : List ℚ) (acc : ℚ) (fn : ℚ → ℚ → ℚ) : ℚ :=
  if population.length = 0 then 0
  else population.foldl (fun a v => fn v a) acc

/-- `Min` from `math/stats.go`. -/
def Min (population : List ℚ) : ℚ :=
  reduce population maxFloat64 fun v acc => min acc v

/-- `Max` from `math/stats.go`. -/
def Max (population : List ℚ) : ℚ :=
  reduce population (-maxFloat64) fun v acc => max acc v

/-- `Mean` from `math/stats.go`. -/
def Mean (population : List ℚ) : ℚ :=
  if population.length = 0 then 0
  else (reduce population 0 fun v acc => acc + v) / population.length

/-- `StdDev` from `math/stats.go`: note the guard is `mean == 0`, not
`len == 0`; `math.Pow(math.Abs(v-mean), 2)` is `|v - mean|^2`. -/
noncomputable def StdDev (population : List ℚ) : ℝ :=
  let mean := Mean population
  if mean = 0 then 0
  else Real.sqrt
    ((reduce population 0 fun v acc => acc + |v - mean| ^ 2) / population.length : ℚ)

/-- `TimeInMillis` from `math/duration.go`:
`float64(d.Nanoseconds()) / 1e6`. -/
def TimeInMillis (d : Int) : ℚ := (d : ℚ) / 1000000

end GoMath

/-! ## `float64` with IEEE special values

The fields of `Stats` are converted to `float64` before the packet-loss
division; on a fresh `Stats` this divides zero by zero, so the special
values have to be part of the model.  Finite arithmetic is exact
(rounding is abstracted away); the two IEEE zeroes are identified. -/

/-- A `float64` value: NaN, one of the infinities, or a finite value. -/
inductive GoFloat where
  | nan
  | inf
  | ninf
  | val (q : ℚ)
  deriving DecidableEq, Repr

/-- IEEE subtraction on `GoFloat`. -/
def GoFloat.sub : GoFloat → GoFloat → GoFloat
  | .nan, _ => .nan
  | _, .nan => .nan
  | .inf, .inf => .nan
  | .inf, _ => .inf
  | .ninf, .ninf => .nan
  | .ninf, _ => .ninf
  | .val _, .inf => .ninf
  | .val _, .ninf => .inf
  | .val a, .val b => .val (a - b)

/-- IEEE multiplication on `GoFloat`. -/
def GoFloat.mul : GoFloat → GoFloat → GoFloat
  | .nan, _ => .nan
  | _, .nan => .nan
  | .inf, .inf => .inf
  | .inf, .ninf => .ninf
  | .ninf, .inf => .ninf
  | .ninf, .ninf => .inf
  | .inf, .val q => if q = 0 then .nan else if 0 < q then .inf else .ninf
  | .val q, .inf => if q = 0 then .nan else if 0 < q then .inf else .ninf
  | .ninf, .val q => if q = 0 then .nan else if 0 < q then .ninf else .inf
  | .val q, .ninf => if q = 0 then .nan else if 0 < q then .ninf else .inf
  | .val a, .val b => .val (a * b)

/-- IEEE division on `GoFloat` (the two zeroes identified, so an exact
zero denominator carries the sign of `+0`): `0/0` is NaN, `x/0` for
nonzero finite `x` is a signed infinity, and finite division is exact. -/
def GoFloat.div : GoFloat → GoFloat → GoFloat
  | .nan, _ => .nan
  | _, .nan => .nan
  | .inf, .inf => .nan
  | .inf, .ninf => .nan
  | .ninf, .inf => .nan
  | .ninf, .ninf => .nan
  | .inf, .val q => if 0 ≤ q then .inf else .ninf
  | .ninf, .val q => if 0 ≤ q then .ninf else .inf
  | .val _, .inf => .val 0
  | .val _, .ninf => .val 0
  | .val a, .val b =>
      if b = 0 then (if a = 0 then .nan else if 0 < a then .inf else .ninf)
      else .val (a / b)

/-- `Stats.PacketLoss` from `pinger/stats.go`:
`(1 - float64(successCount)/float64(totalCount)) * 100`. -/
def Stats.PacketLoss (s : Stats) : GoFloat :=
  GoFloat.mul
    (GoFloat.sub (.val 1) (GoFloat.div (.val s.successCount) (.val s.totalCount)))
    (.val 100)

/-- `Stats.RTTStats` from `pinger/stats.go`: converts the stored rtts
to milliseconds and returns `(Min, Mean, Max, StdDev)` of the resulting
population. -/
noncomputable def Stats.RTTStats (s : Stats) : ℚ × ℚ × ℚ × ℝ :=
  let rttsInMillis := s.rtts.map GoMath.TimeInMillis
  (GoMath.Min rttsInMillis, GoMath.Mean rttsInMillis,
   GoMath.Max rttsInMillis, GoMath.StdDev rttsInMillis)

/-- One completed attempt as seen by the statistics accumulator: the
receive path calls `incSuccess` with the measured rtt on a correlated
reply and `incTimeout` on expiry. -/
inductive StatEvent where
  | success (rtt : Int)
  | timeout
  deriving DecidableEq, Repr

/-- Dispatch one completed attempt to the accumulator. -/
def Stats.applyEvent (s : Stats) : StatEvent → Stats
  | .success rtt => s.incSuccess rtt
  | .timeout => s.incTimeout

/-- The accumulator after a whole run: every completed attempt applied,
in order, to the zero statistics of a fresh pinger. -/
def runStats (evs : List StatEvent) : Stats :=
  evs.foldl Stats.applyEvent zeroStats

/-- Number of successful attempts in a run. -/
def numSuccess (evs : List StatEvent) : Nat :=
  (evs.filter fun e => match e with | .success _ => true | .timeout => false).length

/-- Number of timed-out attempts in a run. -/
def numTimeout (evs : List StatEvent) : Nat :=
  (evs.filter fun e => match e with | .success _ => false | .timeout => true).length

/-- The payload (the `icmp.Echo` data field) of a marshalled packet:
everything after the 4-byte ICMP header and the 4-byte echo header. -/
def packetPayload (r : Except String (List Int)) : List Int :=
  match r with
  | .ok bytes => bytes.drop 8
  | .error _ => []

/-- The arithmetic mean of a sample population as stated by the spec. -/
def popMean (pop : List ℚ) : ℚ := pop.sum / pop.length

/-- Modelled from the spec: the population standard-deviation formula
`sqrt(sum((x - mean)^2) / n)` with divisor `n`, the spec-side yardstick
the code's `GoMath.StdDev` is compared against. -/
noncomputable def popStdDev (pop : List ℚ) : ℝ :=
  Real.sqrt (((pop.map fun x => (x - popMean pop) ^ 2).sum / pop.length : ℚ))

/-- An environment step after which the attempt completes without an
error from `recv`: the send succeeded and the read either timed out or
returned bytes the engine accepts (an Echo Reply matching identifier
and sequence). -/
def stepOk (id seq : Nat) (e : StepEvent) : Bool :=
  match e with
  | .sendFail _ => false
  | .sendOk r _ =>
      match r with
      | .timeout => true
      | .failure _ => false
      | .data _ bytes => isOkE (pingerParse id seq bytes)

/-- A well-formed ICMPv4 Echo *Request* (type 8) carrying identifier 7:
it parses, but it is not an Echo Reply, so `pinger.parse` rejects it. -/
def c1BadReply : List Int := [8, 0, 0, 0, 0, 7, 0, 0, 1, 1, 1, 1, 1, 1, 1, 1]

/-- A well-formed ICMPv4 Echo Reply (type 0) carrying identifier 6 and
sequence 0: against an engine whose identifier is 5 it fails the
correlation check of `pinger.parse`. -/
def c3MismatchReply : List Int := [0, 0, 0, 0, 0, 6, 0, 0, 1, 1, 1, 1, 1, 1, 1, 1]

/-! ## Theorems -/

theorem int64Wrap_add (a b : Int) :
    int64Wrap (int64Wrap a + int64Wrap b) = int64Wrap (a + b) := by
  unfold int64Wrap
  dsimp only
  split <;> split <;> split <;> omega

theorem int64Wrap_wrap (x : Int) : int64Wrap (int64Wrap x) = int64Wrap x := by
  unfold int64Wrap
  dsimp only
  split <;> split <;> omega

theorem timeToBytes_explicit (nsec : Int) :
    timeToBytes nsec =
      [nsec / 2 ^ 56 % 256, nsec / 2 ^ 48 % 256, nsec / 2 ^ 40 % 256,
       nsec / 2 ^ 32 % 256, nsec / 2 ^ 24 % 256, nsec / 2 ^ 16 % 256,
       nsec / 2 ^ 8 % 256, nsec / 2 ^ 0 % 256] := by
  norm_num [timeToBytes, timeByteSize, List.range_succ]

theorem bytesToTimeNsec_explicit (c0 c1 c2 c3 c4 c5 c6 c7 : Int) :
    bytesToTimeNsec [c0, c1, c2, c3, c4, c5, c6, c7] =
      int64Wrap (c0 * 2 ^ 56 + c1 * 2 ^ 48 + c2 * 2 ^ 40 + c3 * 2 ^ 32 +
        c4 * 2 ^ 24 + c5 * 2 ^ 16 + c6 * 2 ^ 8 + c7 * 2 ^ 0) := by
  show int64Wrap (int64Wrap (int64Wrap (int64Wrap (int64Wrap (int64Wrap (int64Wrap (int64Wrap
      (0 + int64Wrap (c0 * 2 ^ 56)) + int64Wrap (c1 * 2 ^ 48)) + int64Wrap (c2 * 2 ^ 40)) +
      int64Wrap (c3 * 2 ^ 32)) + int64Wrap (c4 * 2 ^ 24)) + int64Wrap (c5 * 2 ^ 16)) +
      int64Wrap (c6 * 2 ^ 8)) + int64Wrap (c7 * 2 ^ 0)) = _
  simp only [zero_add, int64Wrap_wrap, int64Wrap_add]

theorem bytesToTimeNsec_timeToBytes (nsec : Int)
    (h1 : -(2 ^ 63) ≤ nsec) (h2 : nsec < 2 ^ 63) :
    bytesToTimeNsec (timeToBytes nsec) = nsec := by
  rw [timeToBytes_explicit, bytesToTimeNsec_explicit]
  unfold int64Wrap
  dsimp only
  split <;> omega

/-! ## Claim C9: timestamp embedding/extraction round-trip -/

/-- C9: for every instant whose nanoseconds-since-epoch value is
representable as a 64-bit integer, `bytesToTime (timeToBytes t)`
recovers `t` exactly, the 8-byte encoding being big-endian. -/
theorem claim_c9_time_roundtrip (nsec : Int)
    (h1 : -(2 ^ 63) ≤ nsec) (h2 : nsec < 2 ^ 63) :
    bytesToTime (timeToBytes nsec) = nsec := by
  unfold bytesToTime
  rw [bytesToTimeNsec_timeToBytes nsec h1 h2]
  unfold unixTime
  rw [mul_comm]
  exact Int.tdiv_add_tmod nsec 1000000000

/-- Witness for C9 at the concrete instant 2023-11-14T22:13:19.123456789Z
(and, via wraparound, at a pre-epoch instant). -/
theorem claim_c9_witness :
    (-(2 ^ 63) ≤ (1700000599123456789 : Int) ∧ (1700000599123456789 : Int) < 2 ^ 63 ∧
      bytesToTime (timeToBytes 1700000599123456789) = 1700000599123456789) ∧
    bytesToTime (timeToBytes (-123456789)) = -123456789 :=
  ⟨⟨by decide, by decide, claim_c9_time_roundtrip 1700000599123456789 (by decide) (by decide)⟩,
   claim_c9_time_roundtrip (-123456789) (by decide) (by decide)⟩

/-! ## Claim C4: statistics accumulator invariants -/

theorem statsFold_counts (evs : List StatEvent) (s : Stats) :
    (evs.foldl Stats.applyEvent s).totalCount = s.totalCount + numSuccess evs + numTimeout evs ∧
    (evs.foldl Stats.applyEvent s).successCount = s.successCount + numSuccess evs ∧
    (evs.foldl Stats.applyEvent s).rtts.length = s.rtts.length + numSuccess evs := by
  induction evs generalizing s with
  | nil => simp [numSuccess, numTimeout]
  | cons e evs ih =>
      obtain ⟨ht, hs, hr⟩ := ih (s.applyEvent e)
      simp only [List.foldl_cons]
      refine ⟨?_, ?_, ?_⟩
      · rw [ht]
        cases e <;>
          simp [numSuccess, numTimeout, List.filter_cons, Stats.applyEvent,
            Stats.incSuccess, Stats.incTimeout] <;> omega
      · rw [hs]
        cases e <;>
          simp [numSuccess, numTimeout, List.filter_cons, Stats.applyEvent,
            Stats.incSuccess, Stats.incTimeout] <;> omega
      · rw [hr]
        cases e <;>
          simp [numSuccess, numTimeout, List.filter_cons, Stats.applyEvent,
            Stats.incSuccess, Stats.incTimeout] <;> omega

/-- C4: starting from a zeroed `Stats`, any sequence of `incSuccess` /
`incTimeout` calls keeps the invariants: `totalCount` is the number of
`incSuccess` calls plus the number of `incTimeout` calls (so
`Transmitted = Received + timeouts`), and the stored rtt sample list
has exactly `successCount` entries. -/
theorem claim_c4_stats_invariants (evs : List StatEvent) :
    (runStats evs).totalCount = numSuccess evs + numTimeout evs ∧
    (runStats evs).Transmitted = (runStats evs).Received + numTimeout evs ∧
    (runStats evs).rtts.length = (runStats evs).successCount := by
  obtain ⟨ht, hs, hr⟩ := statsFold_counts evs zeroStats
  unfold runStats Stats.Transmitted Stats.Received
  rw [ht, hs, hr]
  simp [zeroStats]

/-- Witness for C4 on a concrete run of two successes and one timeout. -/
theorem claim_c4_witness :
    (runStats [.success 5, .timeout, .success 7]).totalCount =
        numSuccess [.success 5, .timeout, .success 7] +
        numTimeout [.success 5, .timeout, .success 7] ∧
    (runStats [.success 5, .timeout, .success 7]).Transmitted =
        (runStats [.success 5, .timeout, .success 7]).Received +
        numTimeout [.success 5, .timeout, .success 7] ∧
    (runStats [.success 5, .timeout, .success 7]).rtts.length =
        (runStats [.success 5, .timeout, .success 7]).successCount :=
  claim_c4_stats_invariants [.success 5, .timeout, .success 7]

/-! ## Claim C10: `NewPinger` mutates the caller's `Options` in place -/

/-- C10: `NewPinger` applies `setDefaults` through the caller's
pointer: afterwards the caller's `Options` value has every
zero-left field replaced by its default (`Timeout ≤ 0` becomes 1s,
`PacketSize = 0` becomes 56) and every positive field untouched. -/
theorem claim_c10_options_mutation (opts : Options) (draw : Nat) :
    (NewPinger draw opts).2 = opts.setDefaults ∧
    (opts.Timeout ≤ 0 → (NewPinger draw opts).2.Timeout = DefaultTimeout) ∧
    (0 < opts.Timeout → (NewPinger draw opts).2.Timeout = opts.Timeout) ∧
    (opts.PacketSize = 0 → (NewPinger draw opts).2.PacketSize = DefaultPacketSize) ∧
    (0 < opts.PacketSize → (NewPinger draw opts).2.PacketSize = opts.PacketSize) ∧
    (NewPinger draw opts).2.Count = opts.Count := by
  have hset : (NewPinger draw opts).2 = opts.setDefaults := rfl
  have hdef : opts.setDefaults =
      (if (if opts.Timeout ≤ 0 then { opts with Timeout := DefaultTimeout }
            else opts).PacketSize ≤ 0 then
        { (if opts.Timeout ≤ 0 then { opts with Timeout := DefaultTimeout } else opts) with
            PacketSize := DefaultPacketSize }
       else if opts.Timeout ≤ 0 then { opts with Timeout := DefaultTimeout } else opts) := by
    simp [Options.setDefaults]
  refine ⟨hset, fun h => ?_, fun h => ?_, fun h => ?_, fun h => ?_, ?_⟩ <;>
    rw [hset, hdef] <;> split_ifs <;> simp_all <;> omega

/-- Witness for C10: a caller passing `Timeout = 0`, `Count = 3`,
`PacketSize = 0` sees its own struct defaulted to 1s / 56 bytes with
the count preserved. -/
theorem claim_c10_witness :
    ((0 : Int) ≤ 0 ∧ (NewPinger 7 ⟨0, 3, 0⟩).2.Timeout = DefaultTimeout) ∧
    ((NewPinger 7 ⟨0, 3, 0⟩).2.PacketSize = DefaultPacketSize) ∧
    (NewPinger 7 ⟨0, 3, 0⟩).2.Count = 3 :=
  ⟨⟨le_refl 0, (claim_c10_options_mutation ⟨0, 3, 0⟩ 7).2.1 (by decide)⟩,
   (claim_c10_options_mutation ⟨0, 3, 0⟩ 7).2.2.2.1 rfl,
   (claim_c10_options_mutation ⟨0, 3, 0⟩ 7).2.2.2.2.2⟩

/-! ## Claim C8: the identifier range -/

/-- Counterexample to C8 as stated: no admissible draw of
`rand.Intn(maxID)` can ever make the identifier 65535, so the
identifier range is not the full 16-bit range `[0, 65535]`. -/
theorem claim_c8_counterexample :
    ¬ ∃ draw : Nat, (NewPinger draw ⟨0, 0, 0⟩).1.id = 65535 := by
  rintro ⟨d, h⟩
  simp only [NewPinger, randIntn, maxID] at h
  omega

/-- C8 (amended): the identifier drawn at construction is
`rand.Intn(0xffff)` of the explicit random draw, hence lies in
`[0, 65534]` — one short of the full 16-bit range — and every value of
`[0, 65534]` is realised by some admissible draw; it is fixed in the
pinger state at construction. -/
theorem claim_c8_identifier_range :
    (∀ draw opts, (NewPinger draw opts).1.id = randIntn maxID draw) ∧
    (∀ draw opts, (NewPinger draw opts).1.id ≤ 65534) ∧
    (∀ v : Nat, v ≤ 65534 → ∀ opts, ∃ draw, (NewPinger draw opts).1.id = v) := by
  refine ⟨fun _ _ => rfl, fun d o => ?_, fun v hv o => ⟨v, ?_⟩⟩
  · simp only [NewPinger, randIntn, maxID]
    omega
  · simp only [NewPinger, randIntn, maxID]
    omega

/-- Witness for C8: the value 1234 is attained. -/
theorem claim_c8_witness :
    (1234 : Nat) ≤ 65534 ∧ ∃ draw, (NewPinger draw ⟨0, 0, 0⟩).1.id = 1234 :=
  ⟨by decide, claim_c8_identifier_range.2.2 1234 (by decide) ⟨0, 0, 0⟩⟩

/-! ## Claim C2: `createPacket` and small sizes -/

theorem marshalMessage_drop8 (mtype code id seq : Int) (data : List Int) :
    (marshalMessage mtype code id seq data).drop 8 = data := rfl

theorem timeToBytes_length (now : Int) : (timeToBytes now).length = 8 := by
  simp [timeToBytes, timeByteSize]

/-- Counterexample to C2 as stated: `createPacket` does *not* fail for
a requested size below 8 — at size 0 it succeeds (the payload simply
stays at the 8 timestamp bytes). -/
theorem claim_c2_counterexample :
    (0 : Int) < 8 ∧ isOkE (createPacket 1 0 0 0) = true :=
  ⟨by norm_num, rfl⟩

/-- C2 (amended): `createPacket` succeeds for *every* requested size;
the payload of the produced message is the 8-byte big-endian timestamp
followed by `size - 8` filler bytes of value 1, hence it is exactly
`size` bytes when `size ≥ 8` and stays at 8 bytes (exceeding the
request) when `size < 8`. -/
theorem claim_c2_createPacket (id seq size now : Int) :
    isOkE (createPacket id seq size now) = true ∧
    packetPayload (createPacket id seq size now) =
      timeToBytes now ++ List.replicate (size - 8).toNat 1 ∧
    (8 ≤ size → (packetPayload (createPacket id seq size now)).length = size.toNat) ∧
    (size < 8 → (packetPayload (createPacket id seq size now)).length = 8) := by
  have hlen := timeToBytes_length now
  have hpay : packetPayload (createPacket id seq size now) =
      timeToBytes now ++ List.replicate (size - 8).toNat 1 := by
    simp only [createPacket, packetPayload, hlen]
    split_ifs with hrem
    · rw [marshalMessage_drop8]
      norm_num
    · rw [marshalMessage_drop8]
      have : (size - 8).toNat = 0 := by omega
      simp [this]
  refine ⟨rfl, hpay, fun h8 => ?_, fun h8 => ?_⟩
  · rw [hpay]
    simp [hlen]
    omega
  · rw [hpay]
    have : (size - 8).toNat = 0 := by omega
    simp [hlen, this]

/-- Witness for C2 at sizes 56 and 3. -/
theorem claim_c2_witness :
    ((8 : Int) ≤ 56 ∧ (packetPayload (createPacket 1 2 56 0)).length = 56) ∧
    ((3 : Int) < 8 ∧ (packetPayload (createPacket 1 2 3 0)).length = 8) :=
  ⟨⟨by norm_num, (claim_c2_createPacket 1 2 56 0).2.2.1 (by norm_num)⟩,
   ⟨by norm_num, (claim_c2_createPacket 1 2 3 0).2.2.2 (by norm_num)⟩⟩

/-! ## Claim C5: zero-attempt statistics -/

/-- Counterexample to C5 as stated: on a zeroed `Stats`, `PacketLoss`
does not return a zero (or any finite) sentinel — it propagates the
`0/0` division as NaN. -/
theorem claim_c5_counterexample :
    Stats.PacketLoss zeroStats = GoFloat.nan ∧ GoFloat.nan ≠ GoFloat.val 0 := by
  constructor
  · simp [Stats.PacketLoss, GoFloat.div, GoFloat.sub, GoFloat.mul, zeroStats]
  · simp

/-- C5 (amended): on a `Stats` value with zero attempts neither
accessor faults: `RTTStats` returns `min = mean = max = stddev = 0`,
while `PacketLoss` returns NaN — the propagated `0/0` — rather than a
zero sentinel. -/
theorem claim_c5_zero_attempts :
    Stats.RTTStats zeroStats = (0, 0, 0, (0 : ℝ)) ∧
    Stats.PacketLoss zeroStats = GoFloat.nan := by
  constructor
  · simp [Stats.RTTStats, zeroStats, GoMath.Min, GoMath.Max, GoMath.Mean,
      GoMath.StdDev, GoMath.reduce]
  · simp [Stats.PacketLoss, GoFloat.div, GoFloat.sub, GoFloat.mul, zeroStats]

/-! ## Claim C6: the packet-loss formula -/

/-- C6: whenever at least one attempt completed, `PacketLoss` is the
finite value `(1 - successCount/totalCount) * 100`; it is exactly 0
when every attempt succeeded, exactly 100 when every attempt timed
out, and non-decreasing as timeouts accrue while successes stay
fixed. -/
theorem claim_c6_packet_loss :
    (∀ s : Stats, 0 < s.totalCount →
      s.PacketLoss = .val ((1 - (s.successCount : ℚ) / s.totalCount) * 100)) ∧
    (∀ s : Stats, 0 < s.totalCount → s.successCount = s.totalCount →
      s.PacketLoss = .val 0) ∧
    (∀ s : Stats, 0 < s.totalCount → s.successCount = 0 → s.PacketLoss = .val 100) ∧
    (∀ (succ m m' : Nat) (l l' : List Int), 0 < succ + m → m ≤ m' →
      ∃ q q' : ℚ, (Stats.mk (succ + m) succ l).PacketLoss = .val q ∧
        (Stats.mk (succ + m') succ l').PacketLoss = .val q' ∧ q ≤ q') := by
  have hval : ∀ s : Stats, 0 < s.totalCount →
      s.PacketLoss = .val ((1 - (s.successCount : ℚ) / s.totalCount) * 100) := by
    intro s hs
    have ht : ((s.totalCount : ℚ)) ≠ 0 := by
      exact_mod_cast Nat.pos_iff_ne_zero.mp hs
    simp [Stats.PacketLoss, GoFloat.div, GoFloat.sub, GoFloat.mul, ht]
  refine ⟨hval, fun s hs heq => ?_, fun s hs heq => ?_, fun succ m m' l l' hpos hle => ?_⟩
  · rw [hval s hs, heq]
    have ht : ((s.totalCount : ℚ)) ≠ 0 := by
      exact_mod_cast Nat.pos_iff_ne_zero.mp hs
    rw [div_self ht]
    norm_num
  · rw [hval s hs, heq]
    norm_num
  · have hpos' : 0 < succ + m' := by omega
    refine ⟨_, _, hval ⟨succ + m, succ, l⟩ hpos, hval ⟨succ + m', succ, l'⟩ hpos', ?_⟩
    have h1 : (0 : ℚ) < succ + m := by exact_mod_cast hpos
    have h2 : (0 : ℚ) < succ + m' := by exact_mod_cast hpos'
    have hmono : (succ : ℚ) / (succ + m') ≤ (succ : ℚ) / (succ + m) := by
      apply div_le_div_of_nonneg_left ?_ h1 ?_
      · positivity
      · exact_mod_cast Nat.add_le_add_left hle succ
    push_cast
    nlinarith [hmono]

/-- Witness for C6 at concrete statistics: one success out of two
attempts gives 50% loss, all successes give 0%, all timeouts give
100%, and one extra timeout cannot lower the loss. -/
theorem claim_c6_witness :
    (Stats.mk 2 1 []).PacketLoss = .val 50 ∧
    (Stats.mk 3 3 []).PacketLoss = .val 0 ∧
    (Stats.mk 4 0 []).PacketLoss = .val 100 ∧
    (∃ q q' : ℚ, (Stats.mk (1 + 1) 1 []).PacketLoss = .val q ∧
      (Stats.mk (1 + 2) 1 []).PacketLoss = .val q' ∧ q ≤ q') := by
  refine ⟨?_, ?_, ?_, ?_⟩
  · rw [claim_c6_packet_loss.1 ⟨2, 1, []⟩ (by decide)]
    norm_num
  · exact claim_c6_packet_loss.2.1 ⟨3, 3, []⟩ (by decide) rfl
  · exact claim_c6_packet_loss.2.2.1 ⟨4, 0, []⟩ (by decide) rfl
  · exact claim_c6_packet_loss.2.2.2 1 1 2 [] [] (by decide) (by decide)

/-! ## Claim C7: the standard-deviation formula -/

theorem foldl_add_eq_sum (f : ℚ → ℚ) (l : List ℚ) (a : ℚ) :
    l.foldl (fun acc v => acc + f v) a = a + (l.map f).sum := by
  induction l generalizing a with
  | nil => simp
  | cons x l ih => simp [ih, add_assoc]

theorem reduce_add_eq_sum (f : ℚ → ℚ) (l : List ℚ) (h : l ≠ []) :
    GoMath.reduce l 0 (fun v acc => acc + f v) = (l.map f).sum := by
  unfold GoMath.reduce
  rw [if_neg (by simpa using h)]
  show l.foldl (fun a v => a + f v) 0 = _
  rw [foldl_add_eq_sum f l 0, zero_add]

theorem Mean_eq_popMean (l : List ℚ) (h : l ≠ []) : GoMath.Mean l = popMean l := by
  unfold GoMath.Mean popMean
  rw [if_neg (by simpa using h)]
  have := reduce_add_eq_sum id l h
  simp only [id] at this
  rw [this, List.map_id]

/-- Counterexample to C7 as stated: on the non-empty population
`[-1, 1]` the code returns 0 (its guard fires because the *mean* is
zero, not because the population is empty) while the population formula
gives 1. -/
theorem claim_c7_counterexample :
    GoMath.StdDev [-1, 1] = 0 ∧ popStdDev [-1, 1] = 1 ∧ (0 : ℝ) ≠ 1 := by
  have hm : GoMath.Mean [-1, 1] = 0 := by
    norm_num [GoMath.Mean, GoMath.reduce]
  refine ⟨by simp [GoMath.StdDev, hm], ?_, by norm_num⟩
  unfold popStdDev popMean
  norm_num

/-- C7 (amended): for every non-empty sample population whose mean is
nonzero, `StdDev` equals the population formula
`sqrt(sum((x - mean)^2) / n)` (divisor `n`); a non-empty population
whose mean is zero short-circuits to 0 instead.  On the samples
`[10ms, 20ms, 30ms, 40ms]` the summary is `min = 10`, `mean = 25`,
`max = 40` and `stddev = sqrt 125 ≈ 11.18`. -/
theorem claim_c7_stddev :
    (∀ pop : List ℚ, pop ≠ [] → GoMath.Mean pop ≠ 0 →
      GoMath.StdDev pop = popStdDev pop) ∧
    ((Stats.mk 4 4 [10000000, 20000000, 30000000, 40000000]).RTTStats =
      (10, 25, 40, Real.sqrt 125) ∧
     (11.18 : ℝ) < Real.sqrt 125 ∧ Real.sqrt 125 < 11.19) := by
  constructor
  · intro pop hne hmean
    unfold GoMath.StdDev popStdDev
    rw [if_neg hmean]
    rw [reduce_add_eq_sum (fun v => |v - GoMath.Mean pop| ^ 2) pop hne]
    rw [Mean_eq_popMean pop hne]
    have habs : (fun v : ℚ => |v - popMean pop| ^ 2) = fun x => (x - popMean pop) ^ 2 := by
      funext x
      rw [sq_abs]
    rw [habs]
  · refine ⟨?_, ?_, ?_⟩
    · have hmap : ([10000000, 20000000, 30000000, 40000000] : List Int).map
          GoMath.TimeInMillis = [10, 20, 30, 40] := by
        norm_num [GoMath.TimeInMillis]
      have hmean : GoMath.Mean [10, 20, 30, 40] = 25 := by
        norm_num [GoMath.Mean, GoMath.reduce]
      refine Prod.ext ?_ (Prod.ext ?_ (Prod.ext ?_ ?_)) <;>
        simp only [Stats.RTTStats, hmap]
      · norm_num [GoMath.Min, GoMath.reduce, GoMath.maxFloat64, min_def]
      · exact hmean
      · norm_num [GoMath.Max, GoMath.reduce, GoMath.maxFloat64, max_def]
      · rw [show (GoMath.StdDev [10, 20, 30, 40] : ℝ) = Real.sqrt 125 from ?_]
        unfold GoMath.StdDev
        rw [hmean, if_neg (by norm_num)]
        rw [reduce_add_eq_sum (fun v => |v - 25| ^ 2) _ (by simp)]
        norm_num
    · exact Real.lt_sqrt_of_sq_lt (by norm_num)
    · exact (Real.sqrt_lt' (by norm_num)).mpr (by norm_num)

/-- Witness for C7 on the population `[1, 2]` (mean `3/2 ≠ 0`). -/
theorem claim_c7_witness :
    ([1, 2] : List ℚ) ≠ [] ∧ GoMath.Mean [1, 2] ≠ 0 ∧
    GoMath.StdDev [1, 2] = popStdDev [1, 2] := by
  have hm : GoMath.Mean [1, 2] = 3 / 2 := by
    norm_num [GoMath.Mean, GoMath.reduce]
  exact ⟨by simp, by rw [hm]; norm_num,
    claim_c7_stddev.1 [1, 2] (by simp) (by rw [hm]; norm_num)⟩

/-! ## Claims C1 and C3: disposition of bad replies, and counted runs -/

/-- Counterexample to C1 as stated: on a reply that is received within
the timeout but is not an Echo Reply (here: an echo request, so parsing
the attempt's reply fails), the drive loop *does* terminate — even with
`count = 0`, i.e. an unbounded run — the terminal-error slot *is*
populated, and (the loop having returned) the outcome stream is closed
with no outcome emitted. -/
theorem claim_c1_counterexample :
    (pingLoop 7 0 (fun _ => .sendOk (.data 16 c1BadReply) 0) 1 0 zeroStats).isSome = true ∧
    ((pingLoop 7 0 (fun _ => .sendOk (.data 16 c1BadReply) 0) 1 0 zeroStats).getD
        ⟨[], none, zeroStats⟩).err.isSome = true ∧
    ((pingLoop 7 0 (fun _ => .sendOk (.data 16 c1BadReply) 0) 1 0 zeroStats).getD
        ⟨[], none, zeroStats⟩).emitted = [] := by
  refine ⟨rfl, rfl, rfl⟩

/-- C1 (amended): a reply received within the timeout that fails ICMP
parsing, is not an Echo Reply, or mismatches the expected identifier or
sequence is treated as *fatal*: `recv` propagates the parse error, the
drive loop stops at once without emitting an outcome for the attempt,
the terminal-error slot receives the error, the statistics are left
untouched, and the outcome stream closes. -/
theorem claim_c1_bad_reply_fatal (id count seq fuel : Nat) (script : Nat → StepEvent)
    (stats : Stats) (n : Nat) (bytes : List Int) (now : Int) (e : String)
    (hstep : script seq = .sendOk (.data n bytes) now)
    (hparse : pingerParse id seq bytes = .error e) :
    pingLoop id count script (fuel + 1) seq stats = some ⟨[], some e, stats⟩ := by
  unfold pingLoop
  rw [hstep]
  simp only [recv, hparse]

/-- Witness for C1: a mid-run attempt (sequence 3 of a count-5 run,
statistics already at 2 attempts) receiving an echo request ends the
run with the parse error and the statistics unchanged. -/
theorem claim_c1_witness :
    pingLoop 7 5 (fun _ => .sendOk (.data 16 c1BadReply) 0) 1 3 ⟨2, 1, [5]⟩ =
      some ⟨[], some "cannot parse response for icmp_seq 3: not an echo reply",
        ⟨2, 1, [5]⟩⟩ :=
  claim_c1_bad_reply_fatal 7 5 3 0 _ ⟨2, 1, [5]⟩ 16 c1BadReply 0 _ rfl rfl

/-- Counterexample to C3 as stated: a run with `count = 2` in which no
transport error occurs (every send succeeds and every read returns
data), but whose first reply bears a mismatched identifier, performs
only one attempt: the loop ends with the error slot populated and emits
no outcomes at all instead of outcomes `0, 1`. -/
theorem claim_c3_counterexample :
    (pingLoop 5 2 (fun _ => .sendOk (.data 16 c3MismatchReply) 0) 2 0 zeroStats).isSome
        = true ∧
    ((pingLoop 5 2 (fun _ => .sendOk (.data 16 c3MismatchReply) 0) 2 0 zeroStats).getD
        ⟨[], none, zeroStats⟩).err.isSome = true ∧
    ((pingLoop 5 2 (fun _ => .sendOk (.data 16 c3MismatchReply) 0) 2 0 zeroStats).getD
        ⟨[], none, zeroStats⟩).emitted.map Ping.Seq = [] := by
  refine ⟨rfl, rfl, rfl⟩

theorem recv_ok_of_stepOk (id seq : Nat) (r : ReadResult) (now : Int) (stats : Stats)
    (h : stepOk id seq (.sendOk r now) = true) :
    ∃ ping stats', recv id seq r now stats = .ok (ping, stats') ∧ ping.Seq = seq := by
  cases r with
  | timeout => exact ⟨_, _, rfl, rfl⟩
  | failure msg => simp [stepOk] at h
  | data n bytes =>
      cases hp : pingerParse id seq bytes with
      | error e =>
          rw [stepOk, hp] at h
          simp [isOkE] at h
      | ok res =>
          refine ⟨⟨seq, n, now - bytesToTime (res.Data.take timeByteSize), false⟩,
            stats.incSuccess (now - bytesToTime (res.Data.take timeByteSize)), ?_, rfl⟩
          simp [recv, hp]

theorem pingLoop_completes (id k : Nat) (script : Nat → StepEvent)
    (good : ∀ i, i < k → stepOk id i (script i) = true) :
    ∀ fuel seq stats, seq < k → k ≤ seq + fuel →
    ∃ res : RunResult, pingLoop id k script fuel seq stats = some res ∧
      res.err = none ∧ res.emitted.map Ping.Seq = List.range' seq (k - seq) := by
  intro fuel
  induction fuel with
  | zero => intro seq stats h1 h2; omega
  | succ fuel ih =>
      intro seq stats h1 h2
      have hg := good seq h1
      cases hs : script seq with
      | sendFail msg => rw [hs] at hg; simp [stepOk] at hg
      | sendOk r now =>
          rw [hs] at hg
          obtain ⟨ping, stats', hrecv, hseq⟩ := recv_ok_of_stepOk id seq r now stats hg
          unfold pingLoop
          simp only [hs, hrecv]
          by_cases hend : k ≠ 0 ∧ seq + 1 = k
          · rw [if_pos hend]
            refine ⟨_, rfl, rfl, ?_⟩
            have hk : k - seq = 1 := by omega
            simp [hk, hseq, List.range']
          · rw [if_neg hend]
            have hlt : seq + 1 < k := by omega
            obtain ⟨res, hres, herr, hmap⟩ := ih (seq + 1) stats' hlt (by omega)
            simp only [hres]
            refine ⟨_, rfl, herr, ?_⟩
            have hk : k - seq = (k - (seq + 1)) + 1 := by omega
            simp only [List.map_cons, hseq, hmap, hk, List.range'_succ]

/-- C3 (amended): in a run with `count = k > 0` in which every send
succeeds and every read yields either a timeout or a valid correlated
reply (with no mismatched or malformed replies, which are fatal, see
C1), the engine performs exactly `k` attempts, closes the outcome
stream with the terminal-error slot empty, and the emitted outcomes
carry sequence numbers exactly `0, 1, ..., k-1` in order. -/
theorem claim_c3_counted_run (k : Nat) (hk : 0 < k) (id : Nat)
    (script : Nat → StepEvent)
    (good : ∀ i, i < k → stepOk id i (script i) = true)
    (fuel : Nat) (hfuel : k ≤ fuel) :
    ∃ res : RunResult, pingLoop id k script fuel 0 zeroStats = some res ∧
      res.err = none ∧ res.emitted.map Ping.Seq = List.range k ∧
      res.emitted.length = k := by
  obtain ⟨res, hres, herr, hmap⟩ :=
    pingLoop_completes id k script good fuel 0 zeroStats hk (by omega)
  refine ⟨res, hres, herr, ?_, ?_⟩
  · rw [hmap, Nat.sub_zero, List.range_eq_range']
  · have := congrArg List.length hmap
    simpa using this

/-- Witness for C3: with `count = 3` and every read timing out, the
loop emits exactly the sequences 0, 1, 2 and ends with no error. -/
theorem claim_c3_witness :
    (pingLoop 0 3 (fun _ => .sendOk .timeout 0) 3 0 zeroStats).isSome = true ∧
    ((pingLoop 0 3 (fun _ => .sendOk .timeout 0) 3 0 zeroStats).getD
        ⟨[], none, zeroStats⟩).err = none ∧
    ((pingLoop 0 3 (fun _ => .sendOk .timeout 0) 3 0 zeroStats).getD
        ⟨[], none, zeroStats⟩).emitted.map Ping.Seq = [0, 1, 2] := by
  obtain ⟨res, hres, herr, hmap, hlen⟩ :=
    claim_c3_counted_run 3 (by decide) 0 (fun _ => .sendOk .timeout 0)
      (fun i _ => rfl) 3 (by decide)
  rw [hres]
  exact ⟨rfl, herr, by rw [Option.getD_some, hmap]; rfl⟩
